import Mathlib

/-!
Shallow embedding of the mumule thread pool (`src/mumule.h`).

The pool state is the `mu_mule` struct's observable part: the `running` flag
and the three atomic counters `queued`, `processing`, `processed`
(lines 64-67 of `src/mumule.h`).  Counters are modelled as `Nat`: they are
`size_t` in C, and no execution of interest approaches the wrap-around bound.

Concurrency is modelled as a small-step interleaving semantics over a
configuration holding the shared pool state, the local state of each worker
thread inside the `mule_thread` loop (lines 93-150), and the local state of
the single dispatcher (owner) thread, which executes a fixed program of API
calls (`mule_submit`, `mule_launch`, `mule_synchronize`, `mule_reset`,
`mule_shutdown`, `mule_destroy`).  Every shared-memory access of the source
(each atomic load, the compare-and-swap, each fetch-add and store) is its own
atomic step, so stale-snapshot interleavings of the source are all present.

Modelling notes, each tied to the source:
* the kernel callback is ghost-recorded: `execLog` appends the work-item
  index at the point the source invokes `(mule->kernel)(...)` (line 129);
* `rets` ghost-records the value returned by every int-returning API call at
  its `return` site, for the claims about return codes;
* the mutex only guards parking/waking; critical sections that the source
  holds it across are collapsed into single atomic steps, which only enlarges
  the set of interleavings for safety properties, and every concrete trace
  used below is also a legal trace of the mutex-faithful semantics;
* `cnd_wait` on `wake_worker` (line 119) has no timeout: a parked worker has
  no step of its own and resumes only when some step broadcasts
  `wake_worker`.  (C11 permits spurious wakeups but does not guarantee them,
  so guaranteed progress cannot rely on them.)  The dispatcher's
  `cnd_timedwait` on `wake_dispatcher` (line 202) always times out
  eventually, so the dispatcher in a wait state can always resume; for the
  same reason the worker's `cnd_signal(&mule->wake_dispatcher)` (line 141)
  need not be modelled separately — it can only hasten a resumption that the
  timeout already guarantees;
* `threads_running` is informational (relaxed counter, never read by the
  library) and is not modelled;
* `mtx_init`/`cnd_init`/`mtx_destroy`/`cnd_destroy` have no observable
  effect on the modelled state.
-/

/-- Fixed maximum worker count, from `enum { mumule_max_threads = 8 }`
(line 58 of `src/mumule.h`). -/
def mumule_max_threads : Nat := 8

/-- API calls the dispatcher (owner) thread can issue, in program order. -/
inductive Op where
  | submit (count : Nat)
  | launch
  | synchronize
  | reset
  | shutdown
  | destroy
deriving DecidableEq

/-- Local state of one worker thread inside the `mule_thread` loop
(lines 105-143 of `src/mumule.h`).  `scan` is the top of the `for (;;)`
loop; `ldq q` holds the snapshot of `queued` after the load on line 107;
`branch q p` additionally holds the snapshot of `processing` after the load
on line 108; `park` is inside `cnd_wait` on line 119; `claimed w` is after a
successful compare-and-swap on line 127 with `workitem = w`, about to invoke
the kernel; `ranK w` is after the kernel invocation on line 129, about to
fetch-add `processed` on line 130; `exited` is after the `break` on
line 116. -/
inductive WState where
  | scan
  | ldq (q : Nat)
  | branch (q p : Nat)
  | park
  | claimed (w : Nat)
  | ranK (w : Nat)
  | exited
deriving DecidableEq

/-- Continuation after the `mule_synchronize` wait loop: a top-level call
returns to the program (`toReady`), while the call from `mule_reset`
(line 214) continues with the counter stores. -/
inductive KS where
  | toReady
  | toReset
deriving DecidableEq

/-- Continuation after `mule_shutdown`: a top-level call returns to the
program (`toReady`), while the call from `mule_destroy` (line 248) continues
with primitive teardown. -/
inductive KH where
  | toReady
  | toDestroy
deriving DecidableEq

/-- Local state of the dispatcher thread.  `ready` is between API calls.
`sTop k`, `sLdq q k`, `sWait k` are inside the `mule_synchronize` wait loop
(lines 188-206): top of the loop, after the `queued` load on line 193, and
inside `cnd_timedwait` on line 202.  `rStQ`, `rStP`, `rStD`, `rBc` are the
four statements of `mule_reset` after its `mule_synchronize` call
(lines 216-220).  `hChk k`, `hSt k`, `hBc k`, `hJoin k` are the stages of
`mule_shutdown` (lines 227-241): the `running` check, the store of
`running = 0`, the `cnd_broadcast`, and the `thrd_join` loop.  `dtor` is the
primitive teardown and `return 0` of `mule_destroy` (lines 250-254). -/
inductive DState where
  | ready
  | sTop (k : KS)
  | sLdq (q : Nat) (k : KS)
  | sWait (k : KS)
  | rStQ
  | rStP
  | rStD
  | rBc
  | hChk (k : KH)
  | hSt (k : KH)
  | hBc (k : KH)
  | hJoin (k : KH)
  | dtor
deriving DecidableEq

/-- Global configuration: the shared `mu_mule` fields, each worker's local
state, the dispatcher's local state, its remaining program, and the two
ghost logs. -/
structure Cfg where
  running : Bool
  queued : Nat
  processing : Nat
  processed : Nat
  num_threads : Nat
  workers : List WState
  disp : DState
  prog : List Op
  execLog : List Nat
  rets : List Int
deriving DecidableEq

/-- Effect of `cnd_broadcast(&mule->wake_worker)`: every worker currently
inside `cnd_wait` resumes (relocks, unlocks, and `continue`s to the top of
the loop, line 122); a worker not yet waiting is unaffected (the lost-wakeup
behaviour of condition variables). -/
def wakeAll (ws : List WState) : List WState :=
  ws.map fun w =>
    match w with
    | WState.park => WState.scan
    | w => w

/-- The `thrd_join` loop of `mule_shutdown` (lines 238-241) can complete
exactly when every worker has left its loop. -/
def allExited (ws : List WState) : Bool :=
  ws.all fun w =>
    match w with
    | WState.exited => true
    | _ => false

/-- Embedding of `mule_init` (lines 82-91): zero the whole struct, store
`num_threads`, construct the primitives.  The kernel and userdata are ghost
(kernel invocations are recorded in `execLog`); the dispatcher's future API
calls are the `prog` argument.  The source performs no validation of
`num_threads`. -/
def mule_init (num_threads : Nat) (prog : List Op) : Cfg :=
  { running := false
    queued := 0
    processing := 0
    processed := 0
    num_threads := num_threads
    workers := []
    disp := DState.ready
    prog := prog
    execLog := []
    rets := [] }

/-- Embedding of `mule_submit` (lines 152-157): one sequentially-consistent
fetch-add of `count` on `queued`, then `cnd_broadcast(&mule->wake_worker)`,
returning `idx + count` where `idx` is the pre-add value. -/
def mule_submit (c : Cfg) (count : Nat) : Cfg × Nat :=
  ({ c with queued := c.queued + count, workers := wakeAll c.workers },
   c.queued + count)

/-- Embedding of `mule_launch` (lines 159-176): `return 0` immediately when
`running` is already set (line 161); otherwise fill the thread descriptors,
store `running = 1`, spawn one `mule_thread` per descriptor (each starting
at the top of its loop), and `return 0`. -/
def mule_launch (c : Cfg) : Cfg × Int :=
  if c.running then (c, 0)
  else
    ({ c with running := true,
              workers := List.replicate c.num_threads WState.scan }, 0)

/-- One deterministic micro-step of worker `i` in the `mule_thread` loop
(lines 105-143).  From `scan` it loads `queued` (line 107); from `ldq q` it
loads `processing` (line 108); from `branch q p` with `p = q` it takes the
mutex and reads `running` (lines 113-114), exiting when false and otherwise
entering `cnd_wait` (line 119); from `branch q p` with `p ≠ q` it attempts
`atomic_compare_exchange_weak(&mule->processing, &processing, processing+1)`
(line 127), which succeeds exactly when the shared `processing` still equals
the snapshot `p`; from `claimed w` it invokes the kernel on item `w`
(line 129, ghost-recorded); from `ranK w` it fetch-adds `processed`
(line 130) and loops.  A parked or exited worker has no step here. -/
def mule_thread_step (c : Cfg) (i : Nat) : Option Cfg :=
  match c.workers.get? i with
  | some WState.scan =>
      some { c with workers := c.workers.set i (WState.ldq c.queued) }
  | some (WState.ldq q) =>
      some { c with workers := c.workers.set i (WState.branch q c.processing) }
  | some (WState.branch q p) =>
      if p = q then
        if c.running then
          some { c with workers := c.workers.set i WState.park }
        else
          some { c with workers := c.workers.set i WState.exited }
      else
        if c.processing = p then
          some { c with processing := p + 1,
                        workers := c.workers.set i (WState.claimed (p + 1)) }
        else
          some { c with workers := c.workers.set i WState.scan }
  | some (WState.claimed w) =>
      some { c with execLog := c.execLog ++ [w],
                    workers := c.workers.set i (WState.ranK w) }
  | some (WState.ranK _) =>
      some { c with processed := c.processed + 1,
                    workers := c.workers.set i WState.scan }
  | some WState.park => none
  | some WState.exited => none
  | none => none

/-- Spurious failure of the weak compare-and-swap on line 127: even when the
shared `processing` matches the expected snapshot, the exchange may fail and
the worker `continue`s to the top of the loop. -/
def mule_thread_casfail (c : Cfg) (i : Nat) : Option Cfg :=
  match c.workers.get? i with
  | some (WState.branch q p) =>
      if p = q then none
      else some { c with workers := c.workers.set i WState.scan }
  | _ => none

/-- One micro-step of the dispatcher thread.  From `ready` it begins the
next API call of its program: `mule_submit` and `mule_launch` are single
steps through their embeddings above; `mule_synchronize` broadcasts
`wake_worker` (line 184) and enters the wait loop; `mule_reset` (line 214)
enters the same loop with the reset continuation; `mule_shutdown` and
`mule_destroy` begin at the `running` check (line 227).  Inside the wait
loop (lines 188-206): `sTop` loads `queued` (line 193); `sLdq q` loads
`processed` (line 194) and either enters `cnd_timedwait` (line 202) when
`processed < queued` or breaks, returning 0 for the completed
`mule_synchronize`.  The reset stores (lines 216-220) zero the three
counters one at a time and broadcast, then `return 0`.  Shutdown stores
`running = 0` (line 233), broadcasts (line 235), and joins, which requires
every worker to have exited; both its `return 0` sites record 0.  `dtor`
records the `return 0` of `mule_destroy` (line 254). -/
def dispatcher_step (c : Cfg) : Option Cfg :=
  match c.disp with
  | DState.ready =>
      match c.prog with
      | [] => none
      | Op.submit n :: r => some { (mule_submit c n).1 with prog := r }
      | Op.launch :: r =>
          some { (mule_launch c).1 with
                   prog := r,
                   rets := (mule_launch c).1.rets ++ [(mule_launch c).2] }
      | Op.synchronize :: r =>
          some { c with prog := r, workers := wakeAll c.workers,
                        disp := DState.sTop KS.toReady }
      | Op.reset :: r =>
          some { c with prog := r, workers := wakeAll c.workers,
                        disp := DState.sTop KS.toReset }
      | Op.shutdown :: r =>
          some { c with prog := r, disp := DState.hChk KH.toReady }
      | Op.destroy :: r =>
          some { c with prog := r, disp := DState.hChk KH.toDestroy }
  | DState.sTop k => some { c with disp := DState.sLdq c.queued k }
  | DState.sLdq q k =>
      if c.processed < q then
        some { c with disp := DState.sWait k }
      else
        match k with
        | KS.toReady =>
            some { c with rets := c.rets ++ [0], disp := DState.ready }
        | KS.toReset =>
            some { c with rets := c.rets ++ [0], disp := DState.rStQ }
  | DState.sWait _ => none
  | DState.rStQ => some { c with queued := 0, disp := DState.rStP }
  | DState.rStP => some { c with processing := 0, disp := DState.rStD }
  | DState.rStD => some { c with processed := 0, disp := DState.rBc }
  | DState.rBc =>
      some { c with workers := wakeAll c.workers,
                    rets := c.rets ++ [0], disp := DState.ready }
  | DState.hChk k =>
      if c.running then
        some { c with disp := DState.hSt k }
      else
        match k with
        | KH.toReady =>
            some { c with rets := c.rets ++ [0], disp := DState.ready }
        | KH.toDestroy =>
            some { c with rets := c.rets ++ [0], disp := DState.dtor }
  | DState.hSt k => some { c with running := false, disp := DState.hBc k }
  | DState.hBc k =>
      some { c with workers := wakeAll c.workers, disp := DState.hJoin k }
  | DState.hJoin k =>
      if allExited c.workers then
        match k with
        | KH.toReady =>
            some { c with rets := c.rets ++ [0], disp := DState.ready }
        | KH.toDestroy =>
            some { c with rets := c.rets ++ [0], disp := DState.dtor }
      else none
  | DState.dtor => some { c with rets := c.rets ++ [0], disp := DState.ready }

/-- Resumption of the dispatcher's `cnd_timedwait` (line 202): by timeout
(after at most 1 ms), by the worker's `cnd_signal`, or spuriously — in every
case the loop re-checks the condition, so the dispatcher returns to the top
of the wait loop.  This step is always enabled while the dispatcher waits:
the timed wait never blocks for good. -/
def dispatcher_wake (c : Cfg) : Option Cfg :=
  match c.disp with
  | DState.sWait k => some { c with disp := DState.sTop k }
  | _ => none

/-- Schedule alphabet: which thread takes the next atomic step.  `w i` is
worker `i`'s deterministic micro-step, `wFail i` a spurious failure of its
weak compare-and-swap, `d` the dispatcher's micro-step, and `dWake` the
resumption of the dispatcher's timed wait. -/
inductive Act where
  | w (i : Nat)
  | wFail (i : Nat)
  | d
  | dWake
deriving DecidableEq

/-- One atomic step of the whole system under schedule action `a`. -/
def step (c : Cfg) (a : Act) : Option Cfg :=
  match a with
  | Act.w i => mule_thread_step c i
  | Act.wFail i => mule_thread_casfail c i
  | Act.d => dispatcher_step c
  | Act.dWake => dispatcher_wake c

/-- Run a finite schedule from a configuration. -/
def run (c : Cfg) : List Act → Option Cfg
  | [] => some c
  | a :: as => (step c a).bind fun c' => run c' as

/-- Reachability: some finite schedule leads from `c` to `c'`. -/
def Steps (c c' : Cfg) : Prop := ∃ as : List Act, run c as = some c'

/-!
Concrete schedules.  Each claim's counterexample below is a single finite
schedule of atomic steps; the end configurations are spelled out literally so
that the violated property is visible by inspection.
-/

/-- Program of the C1 schedule: launch two workers, submit one item twice
(total `T = 2`), then synchronize. -/
def c1Prog : List Op := [Op.launch, Op.submit 1, Op.submit 1, Op.synchronize]

/-- Schedule for C1: worker 0 loads `queued = 0`; the dispatcher submits one
item; worker 1 claims item 1 and is preempted before running it; worker 0
loads `processing = 1`, which differs from its stale `queued` snapshot 0, so
it claims and executes item 2 and then item 3 (both beyond `queued = 1`),
raising `processed` to 2; the dispatcher submits the second item
(`queued = 2`) and synchronizes: it observes `processed = 2 ≥ 2 = queued`
and returns, although item 1 has never been passed to the kernel. -/
def c1Acts : List Act :=
  [Act.d, Act.w 0, Act.d, Act.w 1, Act.w 1, Act.w 1,
   Act.w 0, Act.w 0, Act.w 0, Act.w 0,
   Act.w 0, Act.w 0, Act.w 0, Act.w 0, Act.w 0,
   Act.d, Act.d, Act.d, Act.d]

/-- End configuration of the C1 schedule. -/
def c1End : Cfg :=
  { running := true, queued := 2, processing := 3, processed := 2,
    num_threads := 2,
    workers := [WState.scan, WState.claimed 1],
    disp := DState.ready, prog := [],
    execLog := [2, 3], rets := [0, 0] }

/-- Program of the C2 schedule: launch two workers, submit one item. -/
def c2Prog : List Op := [Op.launch, Op.submit 1]

/-- Schedule for C2: worker 0 loads `queued = 0`; the dispatcher submits one
item; worker 1 claims item 1; worker 0 then loads `processing = 1`, sees it
differ from its stale snapshot of `queued`, and its compare-and-swap of
`processing` from 1 to 2 succeeds — `processing` now exceeds `queued` — and
it invokes the kernel on item 2, outside the submitted range. -/
def c2Acts : List Act :=
  [Act.d, Act.w 0, Act.d, Act.w 1, Act.w 1, Act.w 1, Act.w 0, Act.w 0, Act.w 0]

/-- End configuration of the C2 schedule. -/
def c2End : Cfg :=
  { running := true, queued := 1, processing := 2, processed := 0,
    num_threads := 2,
    workers := [WState.ranK 2, WState.claimed 1],
    disp := DState.ready, prog := [],
    execLog := [2], rets := [0] }

/-- Program of the C3 schedule: launch two workers, submit one item,
synchronize. -/
def c3Prog : List Op := [Op.launch, Op.submit 1, Op.synchronize]

/-- Schedule for C3: as in the C1 schedule, worker 1 holds an unexecuted
claim on item 1 while worker 0 executes phantom items 2 and 3, so the
dispatcher's wait loop observes `processed = 2 ≥ 1 = queued` and
`mule_synchronize` returns with `processed ≠ queued` and with the claimed
item 1 still uncompleted. -/
def c3Acts : List Act :=
  [Act.d, Act.w 0, Act.d, Act.w 1, Act.w 1, Act.w 1,
   Act.w 0, Act.w 0, Act.w 0, Act.w 0,
   Act.w 0, Act.w 0, Act.w 0, Act.w 0, Act.w 0,
   Act.d, Act.d, Act.d]

/-- End configuration of the C3 schedule. -/
def c3End : Cfg :=
  { running := true, queued := 1, processing := 3, processed := 2,
    num_threads := 2,
    workers := [WState.scan, WState.claimed 1],
    disp := DState.ready, prog := [],
    execLog := [2, 3], rets := [0, 0] }

theorem run_preserve (P : Cfg → Prop)
    (hstep : ∀ c a c', P c → step c a = some c' → P c') :
    ∀ (as : List Act) (c c' : Cfg), P c → run c as = some c' → P c' := by
  intro as
  induction as with
  | nil =>
      intro c c' h hr
      simp only [run, Option.some.injEq] at hr
      exact hr ▸ h
  | cons a as ih =>
      intro c c' h hr
      simp only [run, Option.bind_eq_some] at hr
      obtain ⟨c₁, h₁, h₂⟩ := hr
      exact ih c₁ c' (hstep c a c₁ h h₁) h₂

/-- Claim C1 (code bug).  There is an execution in which the submits total
`T = 2` and `mule_synchronize` returns (the program is exhausted, the
dispatcher is back in `ready`, and both int-returning calls have recorded
their results), yet index 1 ∈ [1, 2] was never passed to the kernel — the
kernel ran instead on indices 2 and 3, the latter outside the submitted
range.  The stale-`queued` snapshot in `mule_thread` (loaded on line 107
before `processing` on line 108, and guarded only by the equality test on
line 111) lets a worker claim work items beyond `queued`, so exactly-once
execution of `[1, T]` fails. -/
theorem mule_c1_sync_returns_with_item_skipped :
    Steps (mule_init 2 c1Prog) c1End ∧
    c1End.prog = [] ∧ c1End.disp = DState.ready ∧ c1End.rets = [0, 0] ∧
    c1End.queued = 2 ∧ c1End.execLog = [2, 3] ∧ 1 ∉ c1End.execLog :=
  ⟨⟨c1Acts, by decide⟩, by decide, by decide, by decide, by decide, by decide,
   by decide⟩

/-- Claim C2 (code bug).  A reachable configuration violates the claimed
invariant `processed ≤ processing ≤ queued`: after the schedule `c2Acts`,
`processing = 2` while `queued = 1`, and the kernel has been invoked on work
item 2, outside the submitted range `[1, 1]`.  The violating transition is
the compare-and-swap of `mule_thread` (line 127), whose guard compares the
`processing` snapshot only against a stale snapshot of `queued`. -/
theorem mule_c2_processing_exceeds_queued :
    Steps (mule_init 2 c2Prog) c2End ∧
    c2End.processing = 2 ∧ c2End.queued = 1 ∧ c2End.execLog = [2] :=
  ⟨⟨c2Acts, by decide⟩, by decide, by decide, by decide⟩

/-- Claim C3, counterexample.  `mule_synchronize` returns (dispatcher back
in `ready`, program exhausted, its return recorded) in a reachable
configuration with `processed = 2 ≠ 1 = queued` — refuting "returns exactly
when processed == queued" — and with worker 1 still holding an unexecuted
claim on work item 1 — refuting "never returns while outstanding work items
remain uncompleted". -/
theorem mule_c3_cex_sync_returns_early :
    Steps (mule_init 2 c3Prog) c3End ∧
    c3End.prog = [] ∧ c3End.disp = DState.ready ∧ c3End.rets = [0, 0] ∧
    c3End.processed = 2 ∧ c3End.queued = 1 ∧
    c3End.workers.get? 1 = some (WState.claimed 1) ∧ 1 ∉ c3End.execLog :=
  ⟨⟨c3Acts, by decide⟩, by decide, by decide, by decide, by decide, by decide,
   by decide, by decide⟩

/-- Claim C3, amended.  The wait loop of `mule_synchronize` (lines 188-206):
at a check, with `queued` snapshot `q`, the dispatcher enters the timed wait
exactly when `processed < q` and otherwise breaks out and returns 0; a wake
of the timed wait always leads back to the top of the loop, where the
condition is re-checked starting with a fresh load of `queued`.  So the call
blocks while the observed `processed` is below the observed `queued` and
returns exactly when it observes `processed ≥ queued` — which, by the
counterexample above, does not imply `processed = queued`, nor that all
claimed work items have completed. -/
theorem mule_c3_sync_blocks_below_queued_returns_at_ge :
    (∀ (c : Cfg) (q : Nat) (k : KS), c.disp = DState.sLdq q k →
       c.processed < q → dispatcher_step c = some { c with disp := DState.sWait k }) ∧
    (∀ (c : Cfg) (q : Nat), c.disp = DState.sLdq q KS.toReady →
       q ≤ c.processed →
       dispatcher_step c = some { c with rets := c.rets ++ [0], disp := DState.ready }) ∧
    (∀ (c : Cfg) (k : KS), c.disp = DState.sWait k →
       dispatcher_wake c = some { c with disp := DState.sTop k }) ∧
    (∀ (c : Cfg) (k : KS), c.disp = DState.sTop k →
       dispatcher_step c = some { c with disp := DState.sLdq c.queued k }) := by
  refine ⟨?_, ?_, ?_, ?_⟩
  · intro c q k hd hlt
    simp [dispatcher_step, hd, hlt]
  · intro c q hd hge
    simp [dispatcher_step, hd, Nat.not_lt.mpr hge]
  · intro c k hd
    simp [dispatcher_wake, hd]
  · intro c k hd
    simp [dispatcher_step, hd]

/-- Concrete dispatcher configurations exercising the `mule_synchronize`
wait loop for the C3 witness. -/
def c3WaitCfg : Cfg :=
  { running := true, queued := 5, processing := 3, processed := 3,
    num_threads := 1, workers := [WState.scan],
    disp := DState.sLdq 5 KS.toReady, prog := [],
    execLog := [], rets := [] }

/-- A configuration at the wait-loop check whose observed condition already
holds, for the C3 witness. -/
def c3DoneCfg : Cfg :=
  { running := true, queued := 2, processing := 2, processed := 2,
    num_threads := 1, workers := [WState.scan],
    disp := DState.sLdq 2 KS.toReady, prog := [],
    execLog := [1, 2], rets := [] }

/-- Witness for the amended C3 theorem at concrete configurations. -/
theorem mule_c3_sync_blocks_below_queued_returns_at_ge_witness :
    dispatcher_step c3WaitCfg = some { c3WaitCfg with disp := DState.sWait KS.toReady } ∧
    dispatcher_step c3DoneCfg
      = some { c3DoneCfg with rets := [0], disp := DState.ready } ∧
    dispatcher_wake { c3WaitCfg with disp := DState.sWait KS.toReady }
      = some { c3WaitCfg with disp := DState.sTop KS.toReady } ∧
    dispatcher_step { c3WaitCfg with disp := DState.sTop KS.toReady }
      = some { c3WaitCfg with disp := DState.sLdq 5 KS.toReady } :=
  ⟨mule_c3_sync_blocks_below_queued_returns_at_ge.1 c3WaitCfg 5 KS.toReady rfl
     (by decide),
   mule_c3_sync_blocks_below_queued_returns_at_ge.2.1 c3DoneCfg 2 rfl (by decide),
   mule_c3_sync_blocks_below_queued_returns_at_ge.2.2.1 _ KS.toReady rfl,
   mule_c3_sync_blocks_below_queued_returns_at_ge.2.2.2 _ KS.toReady rfl⟩

/-- Folding `mule_submit` over a list of counts adds their sum to `queued`.
Each submit is a single atomic fetch-add, so any interleaving of concurrent
submitters is one of the serializations this fold ranges over. -/
theorem mule_submit_foldl_queued (counts : List Nat) :
    ∀ c : Cfg,
      ((counts.foldl (fun c n => (mule_submit c n).1) c)).queued
        = c.queued + counts.sum := by
  induction counts with
  | nil => intro c; simp
  | cons n ns ih =>
      intro c
      simp only [List.foldl_cons, List.sum_cons]
      rw [ih]
      simp [mule_submit]
      omega

/-- Claim C4 (confirmed).  For every prior pool state and every count,
`mule_submit` adds `count` to `queued` in one atomic fetch-add and returns
the new upper bound `old queued + count`; and `N` submitters each adding
`k` — in whatever order their atomic fetch-adds serialize — leave `queued`
grown by exactly `N * k`, with no lost increments. -/
theorem mule_c4_submit_adds_and_returns_new_bound :
    (∀ (c : Cfg) (count : Nat),
       (mule_submit c count).2 = c.queued + count ∧
       (mule_submit c count).1.queued = c.queued + count) ∧
    (∀ (c : Cfg) (N k : Nat),
       (((List.replicate N k).foldl (fun c n => (mule_submit c n).1) c)).queued
         = c.queued + N * k) := by
  constructor
  · intro c count
    exact ⟨rfl, rfl⟩
  · intro c N k
    rw [mule_submit_foldl_queued]
    simp [List.sum_replicate, smul_eq_mul]

/-- Program of the C5 schedule: launch one worker, submit one item, shut
down without synchronizing. -/
def c5Prog : List Op := [Op.launch, Op.submit 1, Op.shutdown]

/-- First half of the C5 schedule: the dispatcher launches, submits one
item, and runs `mule_shutdown` up to and including the store of
`running = 0` (line 233), before the worker has looked at the queue. -/
def c5ActsStop : List Act := [Act.d, Act.d, Act.d, Act.d, Act.d]

/-- Configuration at the moment `running` becomes false: the submitted item
is still unclaimed (`processing = 0 < 1 = queued`) and nothing has been
executed. -/
def c5Stop : Cfg :=
  { running := false, queued := 1, processing := 0, processed := 0,
    num_threads := 1, workers := [WState.scan],
    disp := DState.hBc KH.toReady, prog := [],
    execLog := [], rets := [0] }

/-- Second half of the C5 schedule: the dispatcher broadcasts and starts
joining; the worker scans, sees `processing ≠ queued` — a test that never
consults `running` — claims the unclaimed item 1, executes it, re-scans,
only now observes the empty queue and the cleared flag, and exits; the join
completes. -/
def c5ActsDrain : List Act :=
  [Act.d, Act.w 0, Act.w 0, Act.w 0, Act.w 0, Act.w 0,
   Act.w 0, Act.w 0, Act.w 0, Act.d]

/-- End configuration of the C5 schedule: item 1, unclaimed when `running`
became false, has been claimed and executed afterwards, and `mule_shutdown`
has returned. -/
def c5End : Cfg :=
  { running := false, queued := 1, processing := 1, processed := 1,
    num_threads := 1, workers := [WState.exited],
    disp := DState.ready, prog := [],
    execLog := [1], rets := [0, 0] }

/-- Claim C5, counterexample.  In a reachable configuration where `running`
has just been set to false by `mule_shutdown` and work item 1 is unclaimed
(`processing = 0 < 1 = queued`, nothing executed), the system afterwards
claims and executes item 1 before the worker exits and the shutdown's join
returns — refuting "no index that was unclaimed at that point is ever
claimed or executed afterward". -/
theorem mule_c5_cex_unclaimed_item_runs_after_stop :
    Steps (mule_init 1 c5Prog) c5Stop ∧
    c5Stop.running = false ∧ c5Stop.processing = 0 ∧ c5Stop.queued = 1 ∧
    c5Stop.execLog = [] ∧
    Steps c5Stop c5End ∧
    c5End.execLog = [1] ∧ c5End.rets = [0, 0] ∧
    c5End.workers = [WState.exited] :=
  ⟨⟨c5ActsStop, by decide⟩, by decide, by decide, by decide, by decide,
   ⟨c5ActsDrain, by decide⟩, by decide, by decide, by decide⟩

/-- Claim C5, amended.  After `mule_shutdown` stores `running = false`:
a worker holding a claimed item still invokes the kernel on it (in-flight
work runs to completion); but unclaimed indices do not remain unclaimed —
the claim branch of `mule_thread` (lines 125-128) never consults `running`,
so a worker that observes `processing ≠ queued` claims the next item exactly
as before; a worker leaves its loop only from an observation of
`processing = queued` with `running` false (lines 111-116). -/
theorem mule_c5_workers_drain_queue_after_stop :
    (∀ (c : Cfg) (i w : Nat), c.running = false →
       c.workers.get? i = some (WState.claimed w) →
       mule_thread_step c i
         = some { c with execLog := c.execLog ++ [w],
                         workers := c.workers.set i (WState.ranK w) }) ∧
    (∀ (c : Cfg) (i q p : Nat), c.running = false →
       c.workers.get? i = some (WState.branch q p) → p ≠ q →
       c.processing = p →
       mule_thread_step c i
         = some { c with processing := p + 1,
                         workers := c.workers.set i (WState.claimed (p + 1)) }) ∧
    (∀ (c : Cfg) (i q p : Nat),
       c.workers.get? i = some (WState.branch q p) → p = q →
       c.running = false →
       mule_thread_step c i
         = some { c with workers := c.workers.set i WState.exited }) := by
  refine ⟨?_, ?_, ?_⟩
  · intro c i w _ hw
    unfold mule_thread_step
    rw [hw]
  · intro c i q p _ hw hne hp
    unfold mule_thread_step
    rw [hw]
    simp [hne, hp]
  · intro c i q p hw he hr
    unfold mule_thread_step
    rw [hw]
    simp [he, hr]

/-- Witness for the amended C5 theorem: concrete stopped configurations in
which the kernel step of a claimed item, the claim of an unclaimed item, and
the exit on an observed-empty queue are all taken. -/
theorem mule_c5_workers_drain_queue_after_stop_witness :
    mule_thread_step
      { running := false, queued := 2, processing := 1, processed := 0,
        num_threads := 1, workers := [WState.claimed 1],
        disp := DState.ready, prog := [], execLog := [], rets := [] } 0
      = some { running := false, queued := 2, processing := 1, processed := 0,
               num_threads := 1, workers := [WState.ranK 1],
               disp := DState.ready, prog := [], execLog := [1], rets := [] } ∧
    mule_thread_step
      { running := false, queued := 2, processing := 1, processed := 1,
        num_threads := 1, workers := [WState.branch 2 1],
        disp := DState.ready, prog := [], execLog := [1], rets := [] } 0
      = some { running := false, queued := 2, processing := 2, processed := 1,
               num_threads := 1, workers := [WState.claimed 2],
               disp := DState.ready, prog := [], execLog := [1], rets := [] } ∧
    mule_thread_step
      { running := false, queued := 2, processing := 2, processed := 2,
        num_threads := 1, workers := [WState.branch 2 2],
        disp := DState.ready, prog := [], execLog := [1, 2], rets := [] } 0
      = some { running := false, queued := 2, processing := 2, processed := 2,
               num_threads := 1, workers := [WState.exited],
               disp := DState.ready, prog := [], execLog := [1, 2], rets := [] } :=
  ⟨mule_c5_workers_drain_queue_after_stop.1 _ 0 1 rfl rfl,
   mule_c5_workers_drain_queue_after_stop.2.1 _ 0 2 1 rfl rfl (by decide) rfl,
   mule_c5_workers_drain_queue_after_stop.2.2 _ 0 2 2 rfl rfl rfl⟩

/-- Program of the C6 schedule: launch one worker, submit one item,
synchronize. -/
def c6Prog : List Op := [Op.launch, Op.submit 1, Op.synchronize]

/-- Schedule for C6: the worker snapshots `queued = 0` and
`processing = 0`; before it reaches `cnd_wait`, the dispatcher's
`mule_submit` broadcast (line 155) and the defensive broadcast at the top of
`mule_synchronize` (line 184) both fire — the worker is not yet waiting, so
both wakeups are lost; the worker then re-checks only `running` and parks in
the untimed `cnd_wait` (line 119); the dispatcher enters the wait loop and
blocks in its timed wait with `processed = 0 < 1 = queued`. -/
def c6Acts : List Act :=
  [Act.d, Act.w 0, Act.w 0, Act.d, Act.d, Act.w 0, Act.d, Act.d]

/-- The deadlocked family of configurations reached by the C6 schedule: one
worker parked in `cnd_wait`, one submitted and unclaimed item, and the
dispatcher at stage `d` of the `mule_synchronize` wait loop. -/
def deadBase (d : DState) : Cfg :=
  { running := true, queued := 1, processing := 0, processed := 0,
    num_threads := 1, workers := [WState.park],
    disp := d, prog := [], execLog := [], rets := [0] }

/-- Invariant of the deadlock: the system can only cycle the dispatcher
through the three stages of its wait loop; no step broadcasts `wake_worker`,
so the worker stays parked and no work is ever claimed. -/
def DeadInv (c : Cfg) : Prop :=
  c = deadBase (DState.sWait KS.toReady) ∨
  c = deadBase (DState.sTop KS.toReady) ∨
  c = deadBase (DState.sLdq 1 KS.toReady)

theorem deadInv_step (c : Cfg) (a : Act) (c' : Cfg)
    (h : DeadInv c) (hs : step c a = some c') : DeadInv c' := by
  rcases h with h | h | h <;> subst h <;> cases a with
  | w i =>
      cases i with
      | zero => simp [step, mule_thread_step, deadBase] at hs
      | succ n => simp [step, mule_thread_step, deadBase] at hs
  | wFail i =>
      cases i with
      | zero => simp [step, mule_thread_casfail, deadBase] at hs
      | succ n => simp [step, mule_thread_casfail, deadBase] at hs
  | d =>
      simp [step, dispatcher_step, deadBase] at hs
      all_goals (subst hs; unfold DeadInv; decide)
  | dWake =>
      simp [step, dispatcher_wake, deadBase] at hs
      all_goals (subst hs; unfold DeadInv; decide)

/-- Claim C6 (code bug).  The C6 schedule reaches a deadlocked
configuration: both `wake_worker` broadcasts fired before the worker reached
its untimed `cnd_wait` (line 119), so it parks with work pending; from that
configuration, in every reachable future the worker remains parked, nothing
is ever executed and `processed = 0 < 1 = queued` persists, so the pending
`mule_synchronize` never returns — its own wait is timed and keeps
re-polling, but no step ever broadcasts `wake_worker` again.  The worker's
suspension is an unbounded, unconditional wait, and completion is not
reached when its wake signals are lost. -/
theorem mule_c6_worker_parked_forever_after_lost_wakeups :
    Steps (mule_init 1 c6Prog) (deadBase (DState.sWait KS.toReady)) ∧
    (deadBase (DState.sWait KS.toReady)).queued = 1 ∧
    (deadBase (DState.sWait KS.toReady)).processed = 0 ∧
    (∀ c' : Cfg, Steps (deadBase (DState.sWait KS.toReady)) c' →
       c'.workers = [WState.park] ∧ c'.processed < c'.queued ∧
       c'.execLog = [] ∧ c'.rets = [0]) := by
  refine ⟨⟨c6Acts, by decide⟩, by decide, by decide, ?_⟩
  intro c' hsteps
  obtain ⟨as, hrun⟩ := hsteps
  have hinv : DeadInv c' :=
    run_preserve DeadInv deadInv_step as _ c' (Or.inl rfl) hrun
  rcases hinv with h | h | h <;> subst h <;> exact ⟨rfl, by decide, rfl, rfl⟩

/-- Witness for the C6 theorem, applying its universally quantified conjunct
to the deadlocked configuration itself via the empty schedule. -/
theorem mule_c6_worker_parked_forever_witness :
    (deadBase (DState.sWait KS.toReady)).workers = [WState.park] ∧
    (deadBase (DState.sWait KS.toReady)).processed
      < (deadBase (DState.sWait KS.toReady)).queued ∧
    (deadBase (DState.sWait KS.toReady)).execLog = [] ∧
    (deadBase (DState.sWait KS.toReady)).rets = [0] :=
  mule_c6_worker_parked_forever_after_lost_wakeups.2.2.2
    (deadBase (DState.sWait KS.toReady)) ⟨[], rfl⟩

/-- Claim C7, counterexample.  `mule_init` called with a thread count of 9,
exceeding `mumule_max_threads = 8`, completes normally: the resulting pool
is fully initialized, stores `num_threads = 9` unchecked, and is
indistinguishable in form from a legally configured pool — no rejection and
no assertion.  (`mule_init`, lines 82-91, contains no check of
`num_threads`; the out-of-bounds descriptor accesses only happen later, in
`mule_launch`'s loops over `mule->threads[idx]` with `idx < num_threads`.) -/
theorem mule_c7_cex_init_accepts_nine_threads :
    mumule_max_threads < 9 ∧
    mule_init 9 []
      = { running := false, queued := 0, processing := 0, processed := 0,
          num_threads := 9, workers := [], disp := DState.ready, prog := [],
          execLog := [], rets := [] } :=
  ⟨by decide, rfl⟩

/-- Claim C7, amended.  `mule_init` performs no validation of the requested
thread count: for every count, including counts exceeding
`mumule_max_threads`, it zeroes the pool state and stores the count
unchecked, so a configuration error is not detected at init. -/
theorem mule_c7_init_stores_any_count_unchecked :
    ∀ (n : Nat) (p : List Op),
      mule_init n p
        = { running := false, queued := 0, processing := 0, processed := 0,
            num_threads := n, workers := [], disp := DState.ready, prog := p,
            execLog := [], rets := [] } :=
  fun _ _ => rfl

/-- Program of the C8 schedule: `submit(a)`, `synchronize`, `reset`,
`submit(b)`, `synchronize` with `a = b = 1`, two workers. -/
def c8Prog : List Op :=
  [Op.launch, Op.submit 1, Op.synchronize, Op.reset, Op.submit 1,
   Op.synchronize]

/-- First half of the C8 schedule: item 1 is submitted, claimed, executed;
the first `mule_synchronize` returns; `mule_reset` re-synchronizes and
stores `queued = 0` (line 216); before its stores of `processing = 0` and
`processed = 0` (lines 217-218), both workers scan — each loads the zeroed
`queued` and the stale nonzero `processing`, and since the two differ they
CAS-claim items 2 and 3; the reset then finishes zeroing and returns. -/
def c8ActsToReset : List Act :=
  [Act.d, Act.d, Act.w 0, Act.w 0, Act.w 0, Act.w 0, Act.w 0,
   Act.d, Act.d, Act.d,
   Act.d, Act.d, Act.d, Act.d,
   Act.w 0, Act.w 0, Act.w 0,
   Act.w 1, Act.w 1, Act.w 1,
   Act.d, Act.d, Act.d]

/-- Configuration just after `mule_reset` returns in the C8 schedule: all
three counters are zero, item 1 of the first epoch has executed, and the two
workers hold stale claims on items 2 and 3 that survived the reset. -/
def c8Mid : Cfg :=
  { running := true, queued := 0, processing := 0, processed := 0,
    num_threads := 2,
    workers := [WState.claimed 2, WState.claimed 3],
    disp := DState.ready, prog := [Op.submit 1, Op.synchronize],
    execLog := [1], rets := [0, 0, 0, 0] }

/-- Second half of the C8 schedule: `submit(1)` raises `queued` to 1;
worker 0 executes its stale claim on item 2 (`processed = 1`); the second
`mule_synchronize` observes `processed = 1 ≥ 1 = queued` and returns;
worker 1 then also executes its stale claim on item 3. -/
def c8ActsEnd : List Act :=
  [Act.d, Act.w 0, Act.w 0, Act.d, Act.d, Act.d, Act.w 1, Act.w 1]

/-- End configuration of the C8 schedule: two items (2 and 3) were executed
after the reset — not exactly `b = 1` — and the item 1 of the post-reset
epoch never ran. -/
def c8End : Cfg :=
  { running := true, queued := 1, processing := 0, processed := 2,
    num_threads := 2,
    workers := [WState.scan, WState.scan],
    disp := DState.ready, prog := [],
    execLog := [1, 2, 3], rets := [0, 0, 0, 0, 0] }

/-- Claim C8 (code bug).  `mule_reset` does synchronize first and then zero
the three counters (visible in `dispatcher_step`: states `sTop`/`sLdq` with
the `toReset` continuation, then `rStQ`, `rStP`, `rStD`), but the claimed
consequence fails: in the schedule below, the sequence `submit(1)`,
`synchronize`, `reset`, `submit(1)`, `synchronize` executes two items
(indices 2 and 3) after the reset rather than exactly `b = 1`, and the
post-reset item 1 never runs.  The zeroing (three separate stores,
lines 216-218) races the workers' claim path, which consults no epoch
information, so stale claims straddle the reset. -/
theorem mule_c8_reset_race_executes_extra_items :
    Steps (mule_init 2 c8Prog) c8Mid ∧
    c8Mid.queued = 0 ∧ c8Mid.processing = 0 ∧ c8Mid.processed = 0 ∧
    c8Mid.execLog = [1] ∧
    Steps c8Mid c8End ∧
    c8End.prog = [] ∧ c8End.disp = DState.ready ∧
    c8End.rets = [0, 0, 0, 0, 0] ∧ c8End.execLog = [1, 2, 3] :=
  ⟨⟨c8ActsToReset, by decide⟩, by decide, by decide, by decide, by decide,
   ⟨c8ActsEnd, by decide⟩, by decide, by decide, by decide, by decide⟩

/-- Claim C9 (confirmed).  `mule_launch` on a pool whose `running` flag is
set is a pure no-op returning 0; launching twice from any state leaves the
state of the first launch unchanged and returns 0 again; and `mule_shutdown`
on a non-running pool completes in two dispatcher steps (the call entry and
the `running` check on line 227), changing nothing but recording its
`return 0` — no store, no broadcast, no join — so a second shutdown neither
hangs nor errors. -/
theorem mule_c9_launch_idempotent_shutdown_noop :
    (∀ (q pr pd n : Nat) (ws : List WState) (d : DState) (p : List Op)
       (el : List Nat) (rs : List Int),
       mule_launch
         { running := true, queued := q, processing := pr, processed := pd,
           num_threads := n, workers := ws, disp := d, prog := p,
           execLog := el, rets := rs }
         = ({ running := true, queued := q, processing := pr, processed := pd,
              num_threads := n, workers := ws, disp := d, prog := p,
              execLog := el, rets := rs }, 0)) ∧
    (∀ c : Cfg, mule_launch (mule_launch c).1 = ((mule_launch c).1, 0)) ∧
    (∀ (q pr pd n : Nat) (ws : List WState)
       (el : List Nat) (rs : List Int) (r : List Op),
       run { running := false, queued := q, processing := pr, processed := pd,
             num_threads := n, workers := ws, disp := DState.ready,
             prog := Op.shutdown :: r, execLog := el, rets := rs }
           [Act.d, Act.d]
         = some { running := false, queued := q, processing := pr,
                  processed := pd, num_threads := n, workers := ws,
                  disp := DState.ready, prog := r, execLog := el,
                  rets := rs ++ [0] }) := by
  refine ⟨?_, ?_, ?_⟩
  · intro q pr pd n ws d p el rs
    rfl
  · intro c
    by_cases h : c.running
    · simp [mule_launch, h]
    · simp [mule_launch, h]
  · intro q pr pd n ws el rs r
    rfl

theorem mule_thread_step_rets (c : Cfg) (i : Nat) (c' : Cfg)
    (h : mule_thread_step c i = some c') : c'.rets = c.rets := by
  unfold mule_thread_step at h
  split at h <;> (try split at h) <;> (try split at h)
  all_goals try exact Option.noConfusion h
  all_goals (injection h with h; subst h; rfl)

theorem mule_thread_casfail_rets (c : Cfg) (i : Nat) (c' : Cfg)
    (h : mule_thread_casfail c i = some c') : c'.rets = c.rets := by
  unfold mule_thread_casfail at h
  split at h <;> (try split at h)
  all_goals try exact Option.noConfusion h
  all_goals (injection h with h; subst h; rfl)

theorem dispatcher_wake_rets (c c' : Cfg)
    (h : dispatcher_wake c = some c') : c'.rets = c.rets := by
  unfold dispatcher_wake at h
  split at h
  all_goals try exact Option.noConfusion h
  all_goals (injection h with h; subst h; rfl)

theorem dispatcher_step_rets (c c' : Cfg)
    (h : dispatcher_step c = some c') :
    c'.rets = c.rets ∨ c'.rets = c.rets ++ [(0 : Int)] := by
  unfold dispatcher_step at h
  split at h <;> (try split at h) <;> (try split at h)
  all_goals try exact Option.noConfusion h
  all_goals (injection h with h; subst h)
  all_goals first
    | exact Or.inl rfl
    | exact Or.inr rfl
    | (refine Or.inr ?_
       by_cases hr : c.running <;> simp [mule_launch, hr])

/-- Every step either leaves the ghost return log unchanged or records the
constant 0 of one of the source's `return 0` sites. -/
theorem step_rets (c : Cfg) (a : Act) (c' : Cfg) (h : step c a = some c') :
    c'.rets = c.rets ∨ c'.rets = c.rets ++ [(0 : Int)] := by
  cases a with
  | w i => exact Or.inl (mule_thread_step_rets c i c' h)
  | wFail i => exact Or.inl (mule_thread_casfail_rets c i c' h)
  | d => exact dispatcher_step_rets c c' h
  | dWake => exact Or.inl (dispatcher_wake_rets c c' h)

theorem step_retsOk (c : Cfg) (a : Act) (c' : Cfg)
    (hc : c.rets.all (fun r => r == 0) = true) (h : step c a = some c') :
    c'.rets.all (fun r => r == 0) = true := by
  rcases step_rets c a c' h with he | he <;> rw [he]
  · exact hc
  · simp only [List.all_append, hc, Bool.true_and]
    decide

/-- Claim C10 (confirmed).  In every execution from an initialized pool,
every value recorded by an int-returning lifecycle call (`mule_launch`,
`mule_synchronize`, `mule_reset`, `mule_shutdown`, `mule_destroy`) is 0:
each of their `return` sites in the source returns the literal 0, so the
return codes never carry error information. -/
theorem mule_c10_all_lifecycle_calls_return_zero :
    ∀ (n : Nat) (p : List Op) (as : List Act) (c' : Cfg),
      run (mule_init n p) as = some c' →
      c'.rets.all (fun r => r == 0) = true := by
  intro n p as c' hr
  exact run_preserve (fun c => c.rets.all (fun r => r == 0) = true)
    step_retsOk as (mule_init n p) c' rfl hr

/-- Program of the C10 witness: the full lifecycle of the pool. -/
def c10Prog : List Op :=
  [Op.launch, Op.submit 1, Op.synchronize, Op.reset, Op.shutdown, Op.destroy]

/-- Schedule of the C10 witness: launch, submit and execute one item,
synchronize, reset, shut down (the worker exits), destroy. -/
def c10Acts : List Act :=
  [Act.d, Act.d,
   Act.w 0, Act.w 0, Act.w 0, Act.w 0, Act.w 0,
   Act.d, Act.d, Act.d,
   Act.d, Act.d, Act.d, Act.d, Act.d, Act.d, Act.d,
   Act.d, Act.d, Act.d, Act.d,
   Act.w 0, Act.w 0, Act.w 0,
   Act.d,
   Act.d, Act.d, Act.d]

/-- End configuration of the C10 witness: seven int-returning calls
completed (launch; synchronize; the synchronize inside reset; reset;
shutdown; the shutdown inside destroy; destroy), each recording 0. -/
def c10End : Cfg :=
  { running := false, queued := 0, processing := 0, processed := 0,
    num_threads := 1, workers := [WState.exited], disp := DState.ready,
    prog := [], execLog := [1], rets := [0, 0, 0, 0, 0, 0, 0] }

/-- Witness for the C10 theorem on the full-lifecycle schedule. -/
theorem mule_c10_all_lifecycle_calls_return_zero_witness :
    c10End.rets.all (fun r => r == 0) = true :=
  mule_c10_all_lifecycle_calls_return_zero 1 c10Prog c10Acts c10End (by decide)

/-- Witness for the C4 theorem at a concrete pool state: a submit of 5 to a
fresh pool, and three submitters of 4 items each. -/
theorem mule_c4_submit_adds_and_returns_new_bound_witness :
    (mule_submit (mule_init 4 []) 5).2 = (mule_init 4 []).queued + 5 ∧
    (mule_submit (mule_init 4 []) 5).1.queued = (mule_init 4 []).queued + 5 ∧
    (((List.replicate 3 4).foldl (fun c n => (mule_submit c n).1)
        (mule_init 4 [])).queued = (mule_init 4 []).queued + 3 * 4) :=
  ⟨(mule_c4_submit_adds_and_returns_new_bound.1 (mule_init 4 []) 5).1,
   (mule_c4_submit_adds_and_returns_new_bound.1 (mule_init 4 []) 5).2,
   mule_c4_submit_adds_and_returns_new_bound.2 (mule_init 4 []) 3 4⟩

/-- Witness for the amended C7 theorem at the over-limit count 9. -/
theorem mule_c7_init_stores_any_count_unchecked_witness :
    mule_init 9 [Op.launch]
      = { running := false, queued := 0, processing := 0, processed := 0,
          num_threads := 9, workers := [], disp := DState.ready,
          prog := [Op.launch], execLog := [], rets := [] } :=
  mule_c7_init_stores_any_count_unchecked 9 [Op.launch]

/-- Witness for the C9 theorem at concrete pools: a re-launch of an already
running pool, a double launch from a fresh pool, and a shutdown of a
non-running pool. -/
theorem mule_c9_launch_idempotent_shutdown_noop_witness :
    mule_launch
      { running := true, queued := 3, processing := 1, processed := 1,
        num_threads := 2, workers := [WState.scan, WState.park],
        disp := DState.ready, prog := [], execLog := [1], rets := [0] }
      = ({ running := true, queued := 3, processing := 1, processed := 1,
           num_threads := 2, workers := [WState.scan, WState.park],
           disp := DState.ready, prog := [], execLog := [1], rets := [0] }, 0) ∧
    mule_launch (mule_launch (mule_init 2 [])).1
      = ((mule_launch (mule_init 2 [])).1, 0) ∧
    run { running := false, queued := 2, processing := 2, processed := 2,
          num_threads := 1, workers := [WState.exited],
          disp := DState.ready, prog := [Op.shutdown], execLog := [1, 2],
          rets := [0] }
        [Act.d, Act.d]
      = some { running := false, queued := 2, processing := 2, processed := 2,
               num_threads := 1, workers := [WState.exited],
               disp := DState.ready, prog := [], execLog := [1, 2],
               rets := [0] ++ [0] } :=
  ⟨mule_c9_launch_idempotent_shutdown_noop.1 3 1 1 2
     [WState.scan, WState.park] DState.ready [] [1] [0],
   mule_c9_launch_idempotent_shutdown_noop.2.1 (mule_init 2 []),
   mule_c9_launch_idempotent_shutdown_noop.2.2 2 2 2 1
     [WState.exited] [1, 2] [0] []⟩
